import Mathlib

/-!
Shallow embedding of the replicated key-value store wrapper
(openr/kvstore/KvStoreWrapper.cpp) and of the KvStore collaborators it
drives.  Definitions follow the source where it is present in the
repository; the components the repository only calls (the KvStore engine
itself: dominance merge, full sync, peer state machine, counters) are
modelled from the specification and carry a doc comment starting with
"Modelled from the spec:".
-/

namespace KvStoreModel

/-- Peer state of the per-peer state machine (thrift::KvStorePeerState):
IDLE, SYNCING, INITIALIZED. -/
inductive KvStorePeerState
  | IDLE
  | SYNCING
  | INITIALIZED
  deriving DecidableEq, Repr

/-- Peer state-machine events (KvStorePeerEvent). -/
inductive KvStorePeerEvent
  | PEER_ADD
  | SYNC_RESP_RCVD
  | THRIFT_API_ERROR
  deriving DecidableEq, Repr

/-- Modelled from the spec: KvStoreDb.getNextState is not part of the
repository file (only its unit test is); the transition table of spec
section 4.2 defines it.  Pairs outside the table have no defined next
state, rendered here as none. -/
def getNextState : KvStorePeerState → KvStorePeerEvent → Option KvStorePeerState
  | KvStorePeerState.IDLE, KvStorePeerEvent.PEER_ADD =>
      some KvStorePeerState.SYNCING
  | KvStorePeerState.SYNCING, KvStorePeerEvent.SYNC_RESP_RCVD =>
      some KvStorePeerState.INITIALIZED
  | KvStorePeerState.SYNCING, KvStorePeerEvent.THRIFT_API_ERROR =>
      some KvStorePeerState.IDLE
  | KvStorePeerState.INITIALIZED, KvStorePeerEvent.SYNC_RESP_RCVD =>
      some KvStorePeerState.INITIALIZED
  | KvStorePeerState.INITIALIZED, KvStorePeerEvent.THRIFT_API_ERROR =>
      some KvStorePeerState.IDLE
  | _, _ => none

/-- Value record (thrift::Value) from the spec data model: version,
originator id, optional payload and the optional ttl liveness hints.  The
hash attribute is a deterministic fingerprint of
(version, originatorId, value); per spec section 4.3 hash equality
coincides with record equality, so the model compares records directly. -/
structure Value where
  version : Nat
  originatorId : String
  value : Option String
  ttl : Option Int
  ttlVersion : Nat
  deriving DecidableEq, Repr

/-- The createThriftValue helper as invoked by the tests: version,
originator and payload, with the ttl hints left at their defaults. -/
def createThriftValue (version : Nat) (originatorId : String) (value : String) : Value :=
  { version := version
    originatorId := originatorId
    value := some value
    ttl := none
    ttlVersion := 0 }

/-- Lexicographic order on character lists, compared code point by code
point, a strict prefix being smaller. -/
def charListLt : List Char → List Char → Bool
  | [], [] => false
  | [], _ :: _ => true
  | _ :: _, [] => false
  | a :: as, b :: bs =>
    if a.toNat < b.toNat then true
    else if b.toNat < a.toNat then false
    else charListLt as bs

/-- Lexicographic order over the bytes of two strings, as the spec
compares originator ids and values. -/
def strLt (a b : String) : Bool := charListLt a.data b.data

/-- Lexicographic comparison of optional byte strings, absent treated as
smaller (tie-break rule 3 of spec section 4.1). -/
def optValDominates : Option String → Option String → Bool
  | some a, some b => strLt b a
  | some _, none => true
  | none, _ => false

/-- Modelled from the spec: the dominance rule of section 4.1.  True iff
the incoming record dominates the currently stored one: larger version
wins; on a version tie the lexicographically larger originator id wins; on
a further tie the larger optional value wins; exact equality does not
dominate. -/
def recordDominates (inc cur : Value) : Bool :=
  if cur.version < inc.version then true
  else if inc.version < cur.version then false
  else if strLt cur.originatorId inc.originatorId then true
  else if strLt inc.originatorId cur.originatorId then false
  else optValDominates inc.value cur.value

/-- An area database or publication payload: association list from key to
record, first binding for a key wins. -/
abbrev KeyVals := List (String × Value)

/-- Lookup of a key in an area database. -/
def dbGet : KeyVals → String → Option Value
  | [], _ => none
  | kv :: rest, k => if kv.1 = k then some kv.2 else dbGet rest k

/-- Modelled from the spec: AreaDb.set applies the dominance rule of
section 4.1; returns the new database together with whether the incoming
record was accepted (a missing key always accepts, exact equality and any
dominated record reject). -/
def dbSet (db : KeyVals) (k : String) (v : Value) : KeyVals × Bool :=
  match dbGet db k with
  | none => (db ++ [(k, v)], true)
  | some cur =>
    if recordDominates v cur then
      (db.map (fun kv => if kv.1 = k then (k, v) else kv), true)
    else
      (db, false)

/-- Modelled from the spec: AreaDb.merge applies each delta entry under the
dominance rule and returns the new database with the list of accepted
keys. -/
def mergeKeyVals (db : KeyVals) (delta : KeyVals) : KeyVals × List String :=
  delta.foldl
    (fun acc kv =>
      let r := dbSet acc.1 kv.1 kv.2
      (r.1, if r.2 then acc.2 ++ [kv.1] else acc.2))
    (db, [])

/-- KvStoreWrapper.setKey from the source: it builds KeySetParams holding
the single key, fires the set RPC and blocks on it; the RPC result payload
is discarded, so the returned boolean is false exactly when the RPC threw
and true otherwise, independent of whether the record was accepted under
dominance.  The rpcOk argument stands for the absence of an RPC or
internal exception. -/
def setKey (db : KeyVals) (k : String) (v : Value) (rpcOk : Bool) : KeyVals × Bool :=
  if rpcOk then ((dbSet db k v).1, true) else (db, false)

/-- KvStoreWrapper.setKeys from the source: the whole batch goes into one
KeySetParams and one RPC; as with setKey the result payload is discarded
and the boolean only reflects whether the RPC threw. -/
def setKeys (db : KeyVals) (keyVals : List (String × Value)) (rpcOk : Bool) :
    KeyVals × Bool :=
  if rpcOk then ((mergeKeyVals db keyVals).1, true) else (db, false)

/-- Modelled from the spec: the getKvStoreKeyVals read on the KvStore side
returns a publication holding the requested keys that are present in the
area database. -/
def getKvStoreKeyVals : KeyVals → List String → KeyVals
  | [], _ => []
  | kv :: rest, keys =>
    if kv.1 ∈ keys then kv :: getKvStoreKeyVals rest keys
    else getKvStoreKeyVals rest keys

/-- Possible fates of the blocking read performed by getKey: the future
yields a publication, the bounded wait hits the read timeout, the returned
Try carries an error, or some other exception escapes. -/
inductive ReadFate
  | ok
  | futureTimeout
  | tryError
  | internalError
  deriving DecidableEq, Repr

/-- KvStoreWrapper.getKey from the source: requests the single key with the
fixed read timeout.  On success it looks the key up in the returned
publication; when the Try carries an error or a non-timeout exception is
thrown it returns none at once; on FutureTimeout the handler only logs and
falls through, so the lookup runs against the still default-constructed
empty publication and none is returned. -/
def getKey (db : KeyVals) (k : String) (fate : ReadFate) : Option Value :=
  match fate with
  | ReadFate.ok => dbGet (getKvStoreKeyVals db [k]) k
  | ReadFate.futureTimeout => dbGet ([] : KeyVals) k
  | ReadFate.tryError => none
  | ReadFate.internalError => none

/-- Modelled from the spec: one 3-way full-sync session of section 4.3,
requester a against responder b.  The requester receives the responder's
hash dump (hash equality coinciding with record equality), computes
need_from_peer (keys where the responder's record dominates or the
requester lacks the key) and give_to_peer (keys where the requester's
record dominates or the responder lacks the key), then merges the fetched
records into its own database while the responder merges the finalize-sync
records into its database; equal records are skipped.  Returns the
resulting pair (requester database, responder database). -/
def fullSyncStep (a b : KeyVals) : KeyVals × KeyVals :=
  let needFromPeer := b.filter (fun kv =>
    match dbGet a kv.1 with
    | none => true
    | some cur => recordDominates kv.2 cur)
  let giveToPeer := a.filter (fun kv =>
    match dbGet b kv.1 with
    | none => true
    | some cur => recordDominates kv.2 cur)
  ((mergeKeyVals a needFromPeer).1, (mergeKeyVals b giveToPeer).1)

/-- Observability counters of the sync path (spec section 6), the count
field of each. -/
structure SyncCounters where
  numFullSync : Nat
  numFullSyncSuccess : Nat
  numFullSyncFailure : Nat
  numFinalizedSync : Nat
  numFinalizedSyncSuccess : Nat
  numFinalizedSyncFailure : Nat
  deriving DecidableEq, Repr

/-- Counters after fbData reset: all zero. -/
def initialCounters : SyncCounters :=
  { numFullSync := 0
    numFullSyncSuccess := 0
    numFullSyncFailure := 0
    numFinalizedSync := 0
    numFinalizedSyncSuccess := 0
    numFinalizedSyncFailure := 0 }

/-- Modelled from the spec: counter increments sit at the obvious points of
section 4.3.  A one-way full-sync session first bumps num_full_sync; when
the session's RPCs succeed it bumps num_full_sync_success and the
finalize-sync leg on the responder bumps num_finalized_sync and
num_finalized_sync_success; an RPC failure bumps num_full_sync_failure and
no finalize-sync happens.  Returns the two databases after the session and
the updated counters. -/
def runUnidirectionalSync (a b : KeyVals) (rpcOk : Bool) (c : SyncCounters) :
    (KeyVals × KeyVals) × SyncCounters :=
  let c1 := { c with numFullSync := c.numFullSync + 1 }
  if rpcOk then
    (fullSyncStep a b,
     { c1 with
        numFullSyncSuccess := c1.numFullSyncSuccess + 1
        numFinalizedSync := c1.numFinalizedSync + 1
        numFinalizedSyncSuccess := c1.numFinalizedSyncSuccess + 1 })
  else
    ((a, b), { c1 with numFullSyncFailure := c1.numFullSyncFailure + 1 })

/-- Publication (thrift::Publication) from the spec data model: area,
key/value delta, expired keys, optional sender id and traversal path. -/
structure Publication where
  area : String
  keyVals : KeyVals
  expiredKeys : List String
  senderId : Option String
  nodeIds : Option (List String)
  deriving DecidableEq, Repr

/-- Initialization events (thrift::InitializationEvent): KVSTORE_SYNCED is
the marker the Store emits on its queue; the enum carries further
lifecycle values, collapsed here into one representative. -/
inductive InitializationEvent
  | KVSTORE_SYNCED
  | OTHER_LIFECYCLE_EVENT
  deriving DecidableEq, Repr

/-- One item of the kvStoreUpdatesQueue: a tagged variant of Publication
and InitializationEvent. -/
inductive QueueItem
  | pub (p : Publication)
  | initEvent (e : InitializationEvent)
  deriving DecidableEq, Repr

/-- KvStoreWrapper.recvPublication from the source: loop reading the
updates queue; a read error (queue closed) raises runtime_error; an item
of the Publication variant is returned together with the rest of the
queue; any other variant is dropped and the loop continues.  The input
list is the sequence of items the queue delivers before it closes; there
is no timeout branch. -/
def recvPublication : List QueueItem → Except String (Publication × List QueueItem)
  | [] => Except.error "recvPublication failed"
  | QueueItem.pub p :: rest => Except.ok (p, rest)
  | QueueItem.initEvent _ :: rest => recvPublication rest

/-- Outcome of recvKvStoreSyncedSignal: normal return with the rest of the
queue, the runtime_error raised when the queue closes, or the process
abort of a failing CHECK. -/
inductive RecvSignalResult
  | ok (rest : List QueueItem)
  | closedError
  | checkFailed
  deriving DecidableEq, Repr

/-- KvStoreWrapper.recvKvStoreSyncedSignal from the source: loop reading
the updates queue; a read error (queue closed) raises runtime_error; on
the first item of the InitializationEvent variant it CHECKs that the event
equals KVSTORE_SYNCED (aborting otherwise) and returns; Publication items
are dropped and the loop continues. -/
def recvKvStoreSyncedSignal : List QueueItem → RecvSignalResult
  | [] => RecvSignalResult.closedError
  | QueueItem.pub _ :: rest => recvKvStoreSyncedSignal rest
  | QueueItem.initEvent e :: rest =>
    if e = InitializationEvent.KVSTORE_SYNCED then RecvSignalResult.ok rest
    else RecvSignalResult.checkFailed

/-- Lifecycle state of a KvStoreWrapper: whether the inner KvStore event
loop is running, whether the updates queue and the dummy queues are open,
whether the service handler was installed (the constructor always installs
it), whether the thrift server is up and whether the worker thread has
been joined. -/
structure WrapperState where
  storeRunning : Bool
  updatesQueueOpen : Bool
  dummyQueuesOpen : Bool
  handlerPresent : Bool
  serverRunning : Bool
  threadJoined : Bool
  deriving DecidableEq, Repr

/-- The externally visible actions stop can perform, in the order the
source performs them. -/
inductive StopAction
  | closeUpdatesQueue
  | closeDummyQueues
  | stopThriftServer
  | stopKvStore
  | joinThread
  deriving DecidableEq, Repr

/-- KvStoreWrapper.stop from the source: if the inner KvStore is not
running it returns immediately; otherwise it closes the updates queue and
the dummy queues, stops the thrift server when the handler is present,
stops the KvStore and joins the worker thread.  Returns the new state and
the trace of actions performed. -/
def stop (s : WrapperState) : WrapperState × List StopAction :=
  if s.storeRunning then
    ({ storeRunning := false
       updatesQueueOpen := false
       dummyQueuesOpen := false
       handlerPresent := s.handlerPresent
       serverRunning := false
       threadJoined := true },
     [StopAction.closeUpdatesQueue, StopAction.closeDummyQueues] ++
       (if s.handlerPresent then [StopAction.stopThriftServer] else []) ++
       [StopAction.stopKvStore, StopAction.joinThread])
  else
    (s, [])

/-- Peer endpoint specification (thrift::PeerSpec): address and control
port, plus the advertised state metadata. -/
structure PeerSpec where
  peerAddr : String
  ctrlPort : Nat
  state : KvStorePeerState
  deriving DecidableEq, Repr

/-- A per-area peer table: association list from peer name to its spec and
state-machine state. -/
abbrev PeerTable := List (String × (PeerSpec × KvStorePeerState))

/-- Modelled from the spec: addUpdateKvStorePeers on the KvStore side.
Per section 4.2, adding a known peer name first removes the old entry and
reinserts at IDLE before transitioning, so every entry of the map ends up
freshly inserted and moved along the PEER_ADD edge of the state table. -/
def addUpdateKvStorePeers (pt : PeerTable) (peers : List (String × PeerSpec)) :
    PeerTable :=
  peers.foldl
    (fun acc p =>
      acc.filter (fun q => !(q.1 == p.1)) ++
        [(p.1, (p.2,
          (getNextState KvStorePeerState.IDLE KvStorePeerEvent.PEER_ADD).getD
            KvStorePeerState.IDLE))])
    pt

/-- KvStoreWrapper.addPeers from the source: fires the
addUpdateKvStorePeers RPC for the whole map and returns false exactly when
it threw. -/
def addPeers (pt : PeerTable) (peers : List (String × PeerSpec)) (rpcOk : Bool) :
    PeerTable × Bool :=
  if rpcOk then (addUpdateKvStorePeers pt peers, true) else (pt, false)

/-- KvStoreWrapper.addPeer from the source: builds the singleton PeersMap
holding the one peer and delegates to addPeers. -/
def addPeer (pt : PeerTable) (peerName : String) (spec : PeerSpec) (rpcOk : Bool) :
    PeerTable × Bool :=
  addPeers pt [(peerName, spec)] rpcOk

/-- Inject a sequence of key/value records through the wrapper's setKey,
each RPC succeeding, keeping only the database. -/
def injectAll (db : KeyVals) (kvs : List (String × Value)) : KeyVals :=
  kvs.foldl (fun acc kv => (setKey acc kv.1 kv.2 true).1) db

/-- Node name of store A in the UnidirectionThriftFullSync scenario. -/
def scenarioNode1 : String := "node-1"

/-- Payload injected on store A in the scenario (and reused for key1 on
store B). -/
def scenarioValue1 : String := "value-1"

/-- Payload injected on store B in the scenario. -/
def scenarioValue2 : String := "value-2"

/-- Store A of the UnidirectionThriftFullSync scenario: records
(key0, 5), (key1, 1), (key2, 9), (key3, 1), all originated by node-1 with
payload value-1, injected through setKey. -/
def scenarioStoreA : KeyVals :=
  injectAll []
    [("key0", createThriftValue 5 scenarioNode1 scenarioValue1),
     ("key1", createThriftValue 1 scenarioNode1 scenarioValue1),
     ("key2", createThriftValue 9 scenarioNode1 scenarioValue1),
     ("key3", createThriftValue 1 scenarioNode1 scenarioValue1)]

/-- Store B of the UnidirectionThriftFullSync scenario: records
(key1, 1), (key2, 1), (key3, 9), (key4, 6), originated by node-1, payload
value-2 except key1 which reuses value-1, injected through setKey. -/
def scenarioStoreB : KeyVals :=
  injectAll []
    [("key1", createThriftValue 1 scenarioNode1 scenarioValue1),
     ("key2", createThriftValue 1 scenarioNode1 scenarioValue2),
     ("key3", createThriftValue 9 scenarioNode1 scenarioValue2),
     ("key4", createThriftValue 6 scenarioNode1 scenarioValue2)]

/-- The one-way full sync of the scenario: A adds B as its peer, runs one
successful sync session from the reset counters. -/
def scenarioSyncRun : (KeyVals × KeyVals) × SyncCounters :=
  runUnidirectionalSync scenarioStoreA scenarioStoreB true initialCounters

/-- A database holding key1 at version 5, against which a version-1 record
is non-dominant. -/
def preloadedDb : KeyVals :=
  [("key1", createThriftValue 5 scenarioNode1 scenarioValue1)]

/-- A record for key1 at version 1: rejected as non-dominant against
preloadedDb. -/
def staleRecord : Value := createThriftValue 1 scenarioNode1 scenarioValue1

/-- Claim C1 (counterexample): a set_key whose record is rejected as
non-dominant does not return the accepted=false-equivalent result.  With
key1 stored at version 5, writing version 1 is rejected by the dominance
rule (dbSet accepts nothing and leaves the database unchanged), yet setKey
and setKeys both return true because the wrapper discards the RPC result
payload and only maps an exception to false. -/
theorem setKey_true_on_rejected_record :
    (dbSet preloadedDb "key1" staleRecord).2 = false ∧
    (setKey preloadedDb "key1" staleRecord true).1 = preloadedDb ∧
    (setKey preloadedDb "key1" staleRecord true).2 = true ∧
    (setKeys preloadedDb [("key1", staleRecord)] true).2 = true := by
  decide

/-- Claim C1 (amended): for every area database and key-value input, setKey
and setKeys return true exactly when the set RPC completed without an
exception, and false on an RPC or internal error; the boolean does not
report dominance acceptance, so a non-dominant record that is silently
rejected still yields true. -/
theorem setKey_bool_is_rpc_result (db : KeyVals) (k : String) (v : Value)
    (kvs : List (String × Value)) (rpcOk : Bool) :
    (setKey db k v rpcOk).2 = rpcOk ∧ (setKeys db kvs rpcOk).2 = rpcOk := by
  cases rpcOk <;> simp [setKey, setKeys]

/-- Claim C2: in the unidirectional 3-way sync scenario, with store A
holding (k0,v5),(k1,v1),(k2,v9),(k3,v1) and store B holding
(k1,v1),(k2,v1),(k3,v9),(k4,v6), after A one-way syncs with B both stores
hold exactly the five dominant records
(k0,v5),(k1,v1),(k2,v9),(k3,v9),(k4,v6): for each key the record with the
larger version wins on both stores, and each store's dump has exactly 5
keys. -/
theorem scenario_sync_converges :
    scenarioSyncRun.1.1.length = 5 ∧
    scenarioSyncRun.1.2.length = 5 ∧
    dbGet scenarioSyncRun.1.1 "key0"
      = some (createThriftValue 5 scenarioNode1 scenarioValue1) ∧
    dbGet scenarioSyncRun.1.1 "key1"
      = some (createThriftValue 1 scenarioNode1 scenarioValue1) ∧
    dbGet scenarioSyncRun.1.1 "key2"
      = some (createThriftValue 9 scenarioNode1 scenarioValue1) ∧
    dbGet scenarioSyncRun.1.1 "key3"
      = some (createThriftValue 9 scenarioNode1 scenarioValue2) ∧
    dbGet scenarioSyncRun.1.1 "key4"
      = some (createThriftValue 6 scenarioNode1 scenarioValue2) ∧
    dbGet scenarioSyncRun.1.2 "key0"
      = some (createThriftValue 5 scenarioNode1 scenarioValue1) ∧
    dbGet scenarioSyncRun.1.2 "key1"
      = some (createThriftValue 1 scenarioNode1 scenarioValue1) ∧
    dbGet scenarioSyncRun.1.2 "key2"
      = some (createThriftValue 9 scenarioNode1 scenarioValue1) ∧
    dbGet scenarioSyncRun.1.2 "key3"
      = some (createThriftValue 9 scenarioNode1 scenarioValue2) ∧
    dbGet scenarioSyncRun.1.2 "key4"
      = some (createThriftValue 6 scenarioNode1 scenarioValue2) := by
  decide

/-- Claim C3: the peer state transition function realises exactly the
table of spec section 4.2 — (IDLE, PEER_ADD) goes to SYNCING,
(SYNCING, SYNC_RESP_RCVD) to INITIALIZED, (SYNCING, THRIFT_API_ERROR) to
IDLE, (INITIALIZED, SYNC_RESP_RCVD) to INITIALIZED and
(INITIALIZED, THRIFT_API_ERROR) to IDLE — and on every pair of the table a
defined next state is returned. -/
theorem getNextState_matches_table :
    getNextState KvStorePeerState.IDLE KvStorePeerEvent.PEER_ADD
      = some KvStorePeerState.SYNCING ∧
    getNextState KvStorePeerState.SYNCING KvStorePeerEvent.SYNC_RESP_RCVD
      = some KvStorePeerState.INITIALIZED ∧
    getNextState KvStorePeerState.SYNCING KvStorePeerEvent.THRIFT_API_ERROR
      = some KvStorePeerState.IDLE ∧
    getNextState KvStorePeerState.INITIALIZED KvStorePeerEvent.SYNC_RESP_RCVD
      = some KvStorePeerState.INITIALIZED ∧
    getNextState KvStorePeerState.INITIALIZED KvStorePeerEvent.THRIFT_API_ERROR
      = some KvStorePeerState.IDLE := by
  decide

/-- Prepending non-matching initialization events to the queue does not
change what recvPublication returns. -/
theorem recvPublication_skips_initEvents (es : List InitializationEvent)
    (q : List QueueItem) :
    recvPublication (es.map QueueItem.initEvent ++ q) = recvPublication q := by
  induction es with
  | nil => rfl
  | cons e es ih => simpa [recvPublication] using ih

/-- Prepending non-matching publications to the queue does not change what
recvKvStoreSyncedSignal returns. -/
theorem recvSyncedSignal_skips_pubs (ps : List Publication)
    (q : List QueueItem) :
    recvKvStoreSyncedSignal (ps.map QueueItem.pub ++ q)
      = recvKvStoreSyncedSignal q := by
  induction ps with
  | nil => rfl
  | cons p ps ih => simpa [recvKvStoreSyncedSignal] using ih

/-- recvPublication has exactly two outcomes: the closed-queue error or a
returned publication; in particular the unreachable timeout throw of the
source never fires. -/
theorem recvPublication_two_outcomes (q : List QueueItem) :
    recvPublication q = Except.error "recvPublication failed" ∨
    ∃ p rest, recvPublication q = Except.ok (p, rest) := by
  induction q with
  | nil => exact Or.inl rfl
  | cons x q ih =>
    cases x with
    | pub p => exact Or.inr ⟨p, q, rfl⟩
    | initEvent e => simpa [recvPublication] using ih

/-- Claim C4: recv_publication and recv_kvstore_synced_signal block with no
timeout until the next queue item of the matching variant arrives and
return it — any number of non-matching items may come first — and each
fails with the terminal error when the queue closes while it is reading
(the only other outcome). -/
theorem recv_blocks_until_match_or_close :
    (∀ (es : List InitializationEvent) (p : Publication) (rest : List QueueItem),
      recvPublication (es.map QueueItem.initEvent ++ QueueItem.pub p :: rest)
        = Except.ok (p, rest)) ∧
    (∀ es : List InitializationEvent,
      recvPublication (es.map QueueItem.initEvent)
        = Except.error "recvPublication failed") ∧
    (∀ q : List QueueItem,
      recvPublication q = Except.error "recvPublication failed" ∨
      ∃ p rest, recvPublication q = Except.ok (p, rest)) ∧
    (∀ (ps : List Publication) (rest : List QueueItem),
      recvKvStoreSyncedSignal
          (ps.map QueueItem.pub ++
            QueueItem.initEvent InitializationEvent.KVSTORE_SYNCED :: rest)
        = RecvSignalResult.ok rest) ∧
    (∀ ps : List Publication,
      recvKvStoreSyncedSignal (ps.map QueueItem.pub)
        = RecvSignalResult.closedError) := by
  refine ⟨fun es p rest => ?_, fun es => ?_, recvPublication_two_outcomes,
    fun ps rest => ?_, fun ps => ?_⟩
  · rw [recvPublication_skips_initEvents]
    rfl
  · simpa using recvPublication_skips_initEvents es []
  · rw [recvSyncedSignal_skips_pubs]
    simp [recvKvStoreSyncedSignal]
  · simpa using recvSyncedSignal_skips_pubs ps []

/-- Claim C5: getKey returns the optionally stored record — the lookup of
the key in the publication the store answered with, so none when the store
holds no record for the key — and returns none when the fixed read timeout
expires before the answer (the handler only logs and the lookup then runs
against the empty default publication), as well as on a Try error or an
internal exception. -/
theorem getKey_read_contract (db : KeyVals) (k : String) :
    getKey db k ReadFate.ok = dbGet db k ∧
    getKey db k ReadFate.futureTimeout = none ∧
    getKey db k ReadFate.tryError = none ∧
    getKey db k ReadFate.internalError = none := by
  refine ⟨?_, rfl, rfl, rfl⟩
  induction db with
  | nil => rfl
  | cons kv rest ih =>
    by_cases h : kv.1 = k
    · simp [getKey, getKvStoreKeyVals, dbGet, h]
    · simpa [getKey, getKvStoreKeyVals, dbGet, h] using ih

/-- Claim C6: stop on a non-running wrapper returns immediately without
changing any state or performing any action; a stop of a running wrapper
leaves a non-running wrapper, so a second stop is a no-op and stop
composed with stop has the same effect as a single stop; and in the action
trace of a running stop the updates queue is closed strictly before the
store is stopped and before the worker thread is joined. -/
theorem stop_noop_and_idempotent (s t : WrapperState)
    (hs : s.storeRunning = false) (ht : t.storeRunning = true) :
    stop s = (s, []) ∧
    stop ((stop t).1) = ((stop t).1, []) ∧
    (stop t).2.indexOf StopAction.closeUpdatesQueue
      < (stop t).2.indexOf StopAction.stopKvStore ∧
    (stop t).2.indexOf StopAction.closeUpdatesQueue
      < (stop t).2.indexOf StopAction.joinThread := by
  refine ⟨by simp [stop, hs], by simp [stop, ht], ?_, ?_⟩ <;>
    cases hh : t.handlerPresent <;> simp [stop, ht, hh]

/-- A wrapper whose inner store is running, queues open, thread not yet
joined. -/
def runningWrapper : WrapperState :=
  { storeRunning := true
    updatesQueueOpen := true
    dummyQueuesOpen := true
    handlerPresent := true
    serverRunning := true
    threadJoined := false }

/-- A wrapper that has already been stopped. -/
def stoppedWrapper : WrapperState :=
  { storeRunning := false
    updatesQueueOpen := false
    dummyQueuesOpen := false
    handlerPresent := true
    serverRunning := false
    threadJoined := true }

/-- Witness for claim C6 at the concrete stopped and running wrappers. -/
theorem stop_noop_and_idempotent_check :
    stop stoppedWrapper = (stoppedWrapper, []) ∧
    stop ((stop runningWrapper).1) = ((stop runningWrapper).1, []) ∧
    (stop runningWrapper).2.indexOf StopAction.closeUpdatesQueue
      < (stop runningWrapper).2.indexOf StopAction.stopKvStore ∧
    (stop runningWrapper).2.indexOf StopAction.closeUpdatesQueue
      < (stop runningWrapper).2.indexOf StopAction.joinThread :=
  stop_noop_and_idempotent stoppedWrapper runningWrapper rfl rfl

/-- Claim C7: after the unidirectional sync scenario completes, the
observability counters read num_full_sync 1, num_full_sync_success 1,
num_full_sync_failure 0, num_finalized_sync 1, num_finalized_sync_success
1 and num_finalized_sync_failure 0. -/
theorem scenario_sync_counters :
    scenarioSyncRun.2 =
      { numFullSync := 1
        numFullSyncSuccess := 1
        numFullSyncFailure := 0
        numFinalizedSync := 1
        numFinalizedSyncSuccess := 1
        numFinalizedSyncFailure := 0 } := by
  decide

/-- Inversion for recvPublication: a successful read means everything
before the returned publication was an initialization event, and all of
them were dequeued — the remaining queue is exactly the suffix after the
match. -/
theorem recvPublication_ok_inv (q : List QueueItem) (p : Publication)
    (rest : List QueueItem) (h : recvPublication q = Except.ok (p, rest)) :
    ∃ es : List InitializationEvent,
      q = es.map QueueItem.initEvent ++ QueueItem.pub p :: rest := by
  induction q with
  | nil => simp [recvPublication] at h
  | cons x q ih =>
    cases x with
    | pub p1 =>
      simp [recvPublication] at h
      exact ⟨[], by simp [h.1, h.2]⟩
    | initEvent e =>
      obtain ⟨es, hes⟩ := ih (by simpa [recvPublication] using h)
      exact ⟨e :: es, by simp [hes]⟩

/-- Inversion for recvKvStoreSyncedSignal: a normal return means everything
before the first initialization event was a publication, all of them were
dequeued, and that event was KVSTORE_SYNCED. -/
theorem recvSyncedSignal_ok_inv (q rest : List QueueItem)
    (h : recvKvStoreSyncedSignal q = RecvSignalResult.ok rest) :
    ∃ ps : List Publication,
      q = ps.map QueueItem.pub ++
        QueueItem.initEvent InitializationEvent.KVSTORE_SYNCED :: rest := by
  induction q with
  | nil => simp [recvKvStoreSyncedSignal] at h
  | cons x q ih =>
    cases x with
    | pub p1 =>
      obtain ⟨ps, hps⟩ := ih (by simpa [recvKvStoreSyncedSignal] using h)
      exact ⟨p1 :: ps, by simp [hps]⟩
    | initEvent e =>
      by_cases he : e = InitializationEvent.KVSTORE_SYNCED
      · subst he
        simp [recvKvStoreSyncedSignal] at h
        exact ⟨[], by simp [h]⟩
      · simp [recvKvStoreSyncedSignal, he] at h

/-- Claim C8: while waiting for the matching variant, recv_publication and
recv_kvstore_synced_signal consume and silently discard every queue item
of the non-matching variant: whenever a read succeeds, the queue that was
read decomposes into the discarded non-matching prefix, the matching item,
and exactly the remaining suffix — the discarded items are gone from the
single reader's remaining queue and are never redelivered. -/
theorem recv_discards_nonmatching :
    (∀ (q : List QueueItem) (p : Publication) (rest : List QueueItem),
      recvPublication q = Except.ok (p, rest) →
      ∃ es : List InitializationEvent,
        q = es.map QueueItem.initEvent ++ QueueItem.pub p :: rest) ∧
    (∀ q rest : List QueueItem,
      recvKvStoreSyncedSignal q = RecvSignalResult.ok rest →
      ∃ ps : List Publication,
        q = ps.map QueueItem.pub ++
          QueueItem.initEvent InitializationEvent.KVSTORE_SYNCED :: rest) :=
  ⟨recvPublication_ok_inv, recvSyncedSignal_ok_inv⟩

/-- A concrete publication used by the queue witnesses. -/
def samplePublication : Publication :=
  { area := "test-area"
    keyVals := preloadedDb
    expiredKeys := []
    senderId := none
    nodeIds := none }

/-- Witness for claim C8: on the concrete queue holding one initialization
event before the publication, the successful read decomposes the queue as
the theorem states. -/
theorem recv_discards_nonmatching_check :
    ∃ es : List InitializationEvent,
      [QueueItem.initEvent InitializationEvent.KVSTORE_SYNCED,
        QueueItem.pub samplePublication]
        = es.map QueueItem.initEvent ++ QueueItem.pub samplePublication :: [] :=
  recv_discards_nonmatching.1 _ samplePublication [] rfl

/-- Claim C9: recvKvStoreSyncedSignal CHECKs every initialization event it
dequeues against KVSTORE_SYNCED (a failing CHECK aborts the process);
under the invariant that the store only ever emits KVSTORE_SYNCED
initialization events on the queue, and provided some initialization event
arrives, the assertion never fails and the function returns normally. -/
theorem recvSyncedSignal_check_safe (q : List QueueItem)
    (hinv : ∀ e, QueueItem.initEvent e ∈ q →
      e = InitializationEvent.KVSTORE_SYNCED)
    (hhas : ∃ e, QueueItem.initEvent e ∈ q) :
    recvKvStoreSyncedSignal q ≠ RecvSignalResult.checkFailed ∧
    ∃ rest, recvKvStoreSyncedSignal q = RecvSignalResult.ok rest := by
  induction q with
  | nil =>
    obtain ⟨e, he⟩ := hhas
    simp at he
  | cons x q ih =>
    cases x with
    | pub p1 =>
      have hinv1 : ∀ e, QueueItem.initEvent e ∈ q →
          e = InitializationEvent.KVSTORE_SYNCED :=
        fun e he => hinv e (List.mem_cons_of_mem _ he)
      have hhas1 : ∃ e, QueueItem.initEvent e ∈ q := by
        obtain ⟨e, he⟩ := hhas
        simp at he
        exact ⟨e, he⟩
      simpa [recvKvStoreSyncedSignal] using ih hinv1 hhas1
    | initEvent e =>
      have he : e = InitializationEvent.KVSTORE_SYNCED :=
        hinv e (List.mem_cons_self _ _)
      subst he
      exact ⟨by simp [recvKvStoreSyncedSignal], q,
        by simp [recvKvStoreSyncedSignal]⟩

/-- The queue of the C9 witness: one publication, then the KVSTORE_SYNCED
marker. -/
def syncedQueue : List QueueItem :=
  [QueueItem.pub samplePublication,
   QueueItem.initEvent InitializationEvent.KVSTORE_SYNCED]

/-- Witness for claim C9 at the concrete queue: the CHECK never fires and
the signal read returns normally. -/
theorem recvSyncedSignal_check_safe_check :
    recvKvStoreSyncedSignal syncedQueue ≠ RecvSignalResult.checkFailed ∧
    ∃ rest, recvKvStoreSyncedSignal syncedQueue = RecvSignalResult.ok rest :=
  recvSyncedSignal_check_safe syncedQueue
    (by intro e he; simp [syncedQueue] at he; exact he)
    ⟨InitializationEvent.KVSTORE_SYNCED, by simp [syncedQueue]⟩

/-- Claim C10: for every peer table, peer name and peer spec, addPeer is
observationally equivalent to addPeers applied to the singleton map
holding that one peer — the same table results and the same boolean is
returned, for a successful RPC as well as for a throwing one; the source
defines addPeer exactly as this delegation. -/
theorem addPeer_is_singleton_addPeers (pt : PeerTable) (peerName : String)
    (spec : PeerSpec) (rpcOk : Bool) :
    addPeer pt peerName spec rpcOk = addPeers pt [(peerName, spec)] rpcOk :=
  rfl

end KvStoreModel
